import Mathlib

/-!
Shallow embedding of `tool/generate_ast.py`, a source generator that emits a
Java class hierarchy plus visitor interface for two AST families
("Expression" and "Statement").  Every definition below is translated from
the Python source; file output is modelled as the pure string that the
Python code writes.  Braces in emitted Java text are written with the
escapes \x7b and \x7d inside Lean string literals.
-/

/-- Python enum `Expression_Type` (a `StrEnum`), members in declaration order. -/
inductive Expression_Type
  | ASSIGN
  | BINARY
  | GROUPING
  | LITERAL
  | UNARY
  | VARIABLE
deriving DecidableEq

/-- The string value of each `Expression_Type` member; `str(member)` in Python. -/
def Expression_Type.str : Expression_Type → String
  | .ASSIGN => "Assign"
  | .BINARY => "Binary"
  | .GROUPING => "Grouping"
  | .LITERAL => "Literal"
  | .UNARY => "Unary"
  | .VARIABLE => "Variable"

/-- The members of `Expression_Type` in declaration order, i.e. the iteration
order of `for name in Expression_Type` in Python. -/
def Expression_Type.members : List Expression_Type :=
  [.ASSIGN, .BINARY, .GROUPING, .LITERAL, .UNARY, .VARIABLE]

/-- Python enum `Statement_Type` (a `StrEnum`), members in declaration order. -/
inductive Statement_Type
  | EXPR
  | PRINT
  | VAR
deriving DecidableEq

/-- The string value of each `Statement_Type` member; `str(member)` in Python. -/
def Statement_Type.str : Statement_Type → String
  | .EXPR => "Expr"
  | .PRINT => "Print"
  | .VAR => "Var"

/-- The members of `Statement_Type` in declaration order. -/
def Statement_Type.members : List Statement_Type :=
  [.EXPR, .PRINT, .VAR]

/-- Python enum `Parameter_Type` (a `StrEnum`). -/
inductive Parameter_Type
  | EXPRESSION
  | TOKEN
  | OBJECT
deriving DecidableEq

/-- The string value of each `Parameter_Type` member. -/
def Parameter_Type.str : Parameter_Type → String
  | .EXPRESSION => "Expression"
  | .TOKEN => "Token"
  | .OBJECT => "Object"

/-- Python dataclass `Parameter` (frozen): a typed constructor parameter. -/
structure Parameter where
  param_type : Parameter_Type
  param_name : String
deriving DecidableEq

/-- `Parameter.__str__`: renders as `f"{self.param_type} {self.param_name}"`. -/
def Parameter.str (p : Parameter) : String :=
  p.param_type.str ++ " " ++ p.param_name

/-- The Python type annotation `Expression_Type | Statement_Type` of the
`name` field of `AST_Class`, as a sum. -/
inductive AST_Name
  | expr (t : Expression_Type)
  | stmt (t : Statement_Type)
deriving DecidableEq

/-- `f"{name}"` for a tag drawn from either enum. -/
def AST_Name.str : AST_Name → String
  | .expr t => t.str
  | .stmt t => t.str

/-- Models `[str(name) for name in type(x)]` where `x` is an enum member:
the string values of all members of the enum type that the tag belongs to,
in declaration order. -/
def AST_Name.enum_member_strs : AST_Name → List String
  | .expr _ => Expression_Type.members.map Expression_Type.str
  | .stmt _ => Statement_Type.members.map Statement_Type.str

/-- Python dataclass `AST_Class` (frozen): one variant of an AST family. -/
structure AST_Class where
  base_name : String
  name : AST_Name
  parameters : List Parameter
deriving DecidableEq

/-- `AST_Class.__generate_class_decl`. -/
def AST_Class.generate_class_decl (c : AST_Class) : String :=
  "  static class " ++ c.name.str ++ " extends " ++ c.base_name ++ " \x7b\n"

/-- `AST_Class.__generate_constructor_decl`: parameter list is the fields
rendered by `Parameter.str`, joined by a comma and a space. -/
def AST_Class.generate_constructor_decl (c : AST_Class) : String :=
  "    " ++ c.name.str ++ "("
    ++ String.intercalate ", " (c.parameters.map Parameter.str) ++ ") \x7b\n"

/-- `AST_Class.__generate_fields`: one assignment line per parameter, in order. -/
def AST_Class.generate_fields (c : AST_Class) : String :=
  String.join (c.parameters.map (fun p =>
    "        this." ++ p.param_name ++ " = " ++ p.param_name ++ ";\n"))

/-- `AST_Class.__generate_constructor_end`. -/
def AST_Class.generate_constructor_end : String :=
  "    \x7d\n\n"

/-- `AST_Class.__generate_visitor_method`: the accept method, whose body
calls `visitor.visit<tag><base_name>(this)`. -/
def AST_Class.generate_visitor_method (c : AST_Class) : String :=
  "    @Override\n"
    ++ "    <R> R accept(Visitor<R> visitor) \x7b\n"
    ++ ("        return visitor.visit" ++ c.name.str ++ c.base_name ++ "(this);\n")
    ++ "    \x7d\n\n"

/-- `AST_Class.__generate_final_fields`: one final field declaration per
parameter, in order, each rendered from `Parameter.str`. -/
def AST_Class.generate_final_fields (c : AST_Class) : String :=
  String.join (c.parameters.map (fun p => "    final " ++ p.str ++ ";\n"))

/-- `AST_Class.__generate_class_end`. -/
def AST_Class.generate_class_end : String :=
  "  \x7d\n\n"

/-- `AST_Class.__str__`: concatenation of the seven fragments in source order. -/
def AST_Class.str (c : AST_Class) : String :=
  c.generate_class_decl
    ++ c.generate_constructor_decl
    ++ c.generate_fields
    ++ AST_Class.generate_constructor_end
    ++ c.generate_visitor_method
    ++ c.generate_final_fields
    ++ AST_Class.generate_class_end

/-- `build_expressions`: the fixed Expression-family catalog.  The Python
signature defaults `base_name` to "Expression"; the default is applied
explicitly at each call site here. -/
def build_expressions (base_name : String) : List AST_Class :=
  [ ⟨base_name, .expr .ASSIGN,
      [⟨.TOKEN, "name"⟩, ⟨.EXPRESSION, "value"⟩]⟩,
    ⟨base_name, .expr .BINARY,
      [⟨.EXPRESSION, "left"⟩, ⟨.TOKEN, "operator"⟩, ⟨.EXPRESSION, "right"⟩]⟩,
    ⟨base_name, .expr .GROUPING,
      [⟨.EXPRESSION, "expression"⟩]⟩,
    ⟨base_name, .expr .LITERAL,
      [⟨.OBJECT, "value"⟩]⟩,
    ⟨base_name, .expr .UNARY,
      [⟨.TOKEN, "operator"⟩, ⟨.EXPRESSION, "right"⟩]⟩,
    ⟨base_name, .expr .VARIABLE,
      [⟨.TOKEN, "name"⟩]⟩ ]

/-- `build_statements`: the fixed Statement-family catalog.  The Python
signature defaults `base_name` to "Statement". -/
def build_statements (base_name : String) : List AST_Class :=
  [ ⟨base_name, .stmt .EXPR,
      [⟨.EXPRESSION, "expression"⟩]⟩,
    ⟨base_name, .stmt .PRINT,
      [⟨.EXPRESSION, "expression"⟩]⟩,
    ⟨base_name, .stmt .VAR,
      [⟨.TOKEN, "name"⟩, ⟨.EXPRESSION, "initializer"⟩]⟩ ]

/-- Python `str.casefold`; on the ASCII family names used here it agrees
with lowercasing each character. -/
def casefold (s : String) : String :=
  ⟨s.data.map Char.toLower⟩

/-- The f-string body of `generate_visitor_interface`: one interface method
declaration line for a given tag name. -/
def visitor_method_decl (base_name name : String) : String :=
  "    R visit" ++ name ++ base_name ++ "(" ++ name ++ " "
    ++ casefold base_name ++ ");\n"

/-- `generate_visitor_interface`: the interface header, one declaration line
per entry of `expression_types` in list order, and the closing brace. -/
def generate_visitor_interface (base_name : String)
    (expression_types : List String) : String :=
  "  interface Visitor<R> \x7b\n"
    ++ String.join (expression_types.map (visitor_method_decl base_name))
    ++ "  \x7d\n\n"

/-- `base_accept_method`. -/
def base_accept_method : String :=
  "  // Base accept method\n"
    ++ "  abstract <R> R accept(Visitor<R> visitor);\n"

/-- The `header` list built inside `define_ast`: warning comment, package
line, import line and the opening of the abstract base class. -/
def header (base_name : String) : List String :=
  [ "// This file was generated using tool/generate_ast.py any changes made\n// here may be overwritten.\n",
    "package com.cthuloops.jlox;\n\n",
    "import java.util.List;\n\n",
    "abstract class " ++ base_name ++ " \x7b\n" ]

/-- `os.path.join` for the two-argument form used by `define_ast` (relative
file name appended to a directory). -/
def path_join (dir name : String) : String :=
  if dir.endsWith "/" || dir == "" then dir ++ name else dir ++ "/" ++ name

/-- A file produced by one `define_ast` call: its path and full text. -/
structure FileWrite where
  filepath : String
  contents : String
deriving DecidableEq

/-- `define_ast`: on a non-empty variant list, the file written is the
header, the visitor interface generated from all members of the enum type
of the first variant of the list (`type(ast[0].name)`), each class block in list
order, the base accept method and the closing brace.  On the empty list the
indexing `ast[0]` fails (IndexError) before the file is opened, modelled as
`none`. -/
def define_ast (output_dir base_name : String) (ast : List AST_Class) :
    Option FileWrite :=
  match ast with
  | [] => none
  | a :: rest =>
    some ⟨path_join output_dir (base_name ++ ".java"),
      String.join (header base_name)
        ++ generate_visitor_interface base_name a.name.enum_member_strs
        ++ String.join ((a :: rest).map AST_Class.str)
        ++ base_accept_method
        ++ "\x7d\n"⟩

/-- The observable outcome of `main`: either the usage error (message on
stderr plus exit status) or the list of files written. -/
inductive MainResult
  | usage_error (stderr_line : String) (code : Nat)
  | ok (writes : List FileWrite)
deriving DecidableEq

/-- The files a `MainResult` wrote: none on the usage-error path. -/
def MainResult.writes : MainResult → List FileWrite
  | .usage_error _ _ => []
  | .ok ws => ws

namespace generate_ast

/-- `main`, over the full `sys.argv` (program name first): with
`len(sys.argv) != 2` it prints the usage line to stderr and exits with
status 64 before any generation; otherwise it runs `define_ast` for both
families on `sys.argv[1]`.  `none` models an uncaught exception. -/
def main (argv : List String) : Option MainResult :=
  if argv.length ≠ 2 then
    some (.usage_error "Usage: generate_ast <output directory>" 64)
  else
    match argv with
    | _ :: dir :: _ =>
      match define_ast dir "Expression" (build_expressions "Expression"),
            define_ast dir "Statement" (build_statements "Statement") with
      | some e, some s => some (.ok [e, s])
      | _, _ => none
    | _ => none

end generate_ast

/-! Measurement functions used to state the claims over the emitted text. -/

/-- Whether `pat` is a prefix of `cs` (character lists). -/
def substr_at : List Char → List Char → Bool
  | [], _ => true
  | _ :: _, [] => false
  | p :: ps, c :: cs => p == c && substr_at ps cs

/-- Number of (possibly overlapping) positions of `s` at which `pat` occurs. -/
def occurrences (pat : List Char) : List Char → Nat
  | [] => 0
  | c :: cs => (if substr_at pat (c :: cs) then 1 else 0) + occurrences pat cs

/-- Number of positions of the string `s` at which the non-empty pattern
`pat` occurs as a substring. -/
def countSubstr (s pat : String) : Nat :=
  occurrences pat.data s.data

/-- Whether `pat` occurs somewhere in `s`. -/
def containsSubstr (s pat : String) : Bool :=
  decide (0 < countSubstr s pat)

/-- The distinct variant-tag strings of a variant list, in first-occurrence
order. -/
def distinct_tags (ast : List AST_Class) : List String :=
  ast.foldl (fun acc c => if c.name.str ∈ acc then acc else acc ++ [c.name.str]) []

/-- The Scenario A variant: tag "Literal" with the single field
`(OBJECT, "value")` in the "Expression" family. -/
def literal_only : AST_Class :=
  ⟨"Expression", .expr .LITERAL, [⟨.OBJECT, "value"⟩]⟩

/-- Whether two tags are drawn from the same Python enum type, i.e.
`type(x) == type(y)` for the two enum members. -/
def AST_Name.enum_eq : AST_Name → AST_Name → Bool
  | .expr _, .expr _ => true
  | .stmt _, .stmt _ => true
  | .expr _, .stmt _ => false
  | .stmt _, .expr _ => false

/-- Every Expression tag value occurs among the member strings of its enum. -/
theorem str_mem_expr_members (t : Expression_Type) :
    t.str ∈ Expression_Type.members.map Expression_Type.str := by
  cases t <;> decide

/-- Every Statement tag value occurs among the member strings of its enum. -/
theorem str_mem_stmt_members (t : Statement_Type) :
    t.str ∈ Statement_Type.members.map Statement_Type.str := by
  cases t <;> decide

/-- A tag value occurs among the member strings of any tag of the same enum. -/
theorem mem_enum_member_strs_of_enum_eq :
    ∀ x y : AST_Name, AST_Name.enum_eq x y = true → x.str ∈ y.enum_member_strs
  | .expr t, .expr _, _ => str_mem_expr_members t
  | .stmt t, .stmt _, _ => str_mem_stmt_members t
  | .expr _, .stmt _, h => nomatch h
  | .stmt _, .expr _, h => nomatch h

/-- `String.join` of a mapped list distributes over a split of the list. -/
theorem join_map_split (f : String → String) (l1 l2 : List String)
    (x : String) :
    String.join ((l1 ++ x :: l2).map f)
      = String.join (l1.map f) ++ (f x ++ String.join (l2.map f)) := by
  apply String.ext
  simp [List.flatten_append]

/-- C5: for every variant, the constructor parameter list is the fields
rendered "kind name" in declared order joined by ", ", the constructor body
assigns each parameter to the same-named instance field in the same order,
and the final field declarations render exactly the same fields, in the
same order, each as "final kind name;". -/
theorem class_block_field_sections (v : AST_Class) :
    AST_Class.str v =
      v.generate_class_decl
        ++ ("    " ++ v.name.str ++ "("
            ++ String.intercalate ", "
                (v.parameters.map (fun p => p.param_type.str ++ " " ++ p.param_name))
            ++ ") \x7b\n")
        ++ String.join (v.parameters.map (fun p =>
              "        this." ++ p.param_name ++ " = " ++ p.param_name ++ ";\n"))
        ++ AST_Class.generate_constructor_end
        ++ v.generate_visitor_method
        ++ String.join (v.parameters.map (fun p =>
              "    final " ++ (p.param_type.str ++ " " ++ p.param_name) ++ ";\n"))
        ++ AST_Class.generate_class_end := rfl

/-- C6: rendering a family is deterministic; structurally equal inputs give
character-identical output, and rendering the same input twice gives no
difference. -/
theorem define_ast_deterministic (d1 d2 b1 b2 : String)
    (v1 v2 : List AST_Class) (hd : d1 = d2) (hb : b1 = b2) (hv : v1 = v2) :
    define_ast d1 b1 v1 = define_ast d2 b2 v2
      ∧ define_ast d1 b1 v1 = define_ast d1 b1 v1 := by
  subst hd; subst hb; subst hv; exact ⟨rfl, rfl⟩

/-- Witness for C6 at a concrete input. -/
theorem define_ast_deterministic_witness :
    (("o" : String) = "o" ∧ ("Expression" : String) = "Expression"
        ∧ [literal_only] = [literal_only])
      ∧ (define_ast "o" "Expression" [literal_only]
            = define_ast "o" "Expression" [literal_only]
        ∧ define_ast "o" "Expression" [literal_only]
            = define_ast "o" "Expression" [literal_only]) :=
  ⟨⟨rfl, rfl, rfl⟩,
    define_ast_deterministic "o" "o" "Expression" "Expression"
      [literal_only] [literal_only] rfl rfl rfl⟩

/-- C7: the catalog builders return the fixed ordered variant lists: six
Expression variants tagged Assign, Binary, Grouping, Literal, Unary,
Variable with family name "Expression", and three Statement variants tagged
Expr, Print, Var with family name "Statement"; repeated calls give
structurally identical results. -/
theorem catalog_builders_fixed :
    (build_expressions "Expression").map (fun c => c.name.str)
        = ["Assign", "Binary", "Grouping", "Literal", "Unary", "Variable"]
      ∧ (build_expressions "Expression").length = 6
      ∧ (build_expressions "Expression").all
          (fun c => c.base_name == "Expression") = true
      ∧ (build_statements "Statement").map (fun c => c.name.str)
          = ["Expr", "Print", "Var"]
      ∧ (build_statements "Statement").length = 3
      ∧ (build_statements "Statement").all
          (fun c => c.base_name == "Statement") = true
      ∧ build_expressions "Expression" = build_expressions "Expression"
      ∧ build_statements "Statement" = build_statements "Statement" :=
  ⟨rfl, rfl, rfl, rfl, rfl, rfl, rfl, rfl⟩

/-- C9: on a non-empty variant list the indexing `ast[0]` succeeds and the
emitter produces a file, while on the empty list it fails with no output. -/
theorem define_ast_nonempty_succeeds (d b : String) (ast : List AST_Class)
    (h : ast ≠ []) :
    (define_ast d b ast).isSome = true ∧ define_ast d b [] = none := by
  cases ast with
  | nil => exact absurd rfl h
  | cons a rest => exact ⟨rfl, rfl⟩

/-- Witness for C9 at a concrete input. -/
theorem define_ast_nonempty_succeeds_witness :
    [literal_only] ≠ ([] : List AST_Class)
      ∧ ((define_ast "o" "Expression" [literal_only]).isSome = true
        ∧ define_ast "o" "Expression" [] = none) :=
  ⟨by decide, define_ast_nonempty_succeeds "o" "Expression" [literal_only]
    (by decide)⟩

/-- C8: invoked with an argument count other than one positional argument,
the program writes the usage line to stderr and exits with status 64 with
no file written; with exactly one argument no usage error is raised. -/
theorem main_usage_behavior (argv : List String) (prog dir : String)
    (h : argv.length ≠ 2) :
    generate_ast.main argv
        = some (.usage_error "Usage: generate_ast <output directory>" 64)
      ∧ (generate_ast.main argv).map MainResult.writes = some []
      ∧ ∃ ws, generate_ast.main [prog, dir] = some (.ok ws) := by
  refine ⟨?_, ?_, ⟨_, rfl⟩⟩
  · simp [generate_ast.main, h]
  · simp [generate_ast.main, h, MainResult.writes]

/-- Witness for C8: zero arguments trip the usage error, one argument runs
the generator. -/
theorem main_usage_behavior_witness :
    (["generate_ast"].length ≠ 2)
      ∧ (generate_ast.main ["generate_ast"]
            = some (.usage_error "Usage: generate_ast <output directory>" 64)
        ∧ (generate_ast.main ["generate_ast"]).map MainResult.writes = some []
        ∧ ∃ ws, generate_ast.main ["generate_ast", "outdir"]
            = some (.ok ws)) :=
  ⟨by decide, main_usage_behavior ["generate_ast"] "generate_ast" "outdir"
    (by decide)⟩

/-- C10: the visitor-interface block depends only on the base name and the
enum type of the tag of the first variant: one declaration per member of that
enum, in declaration order, with the parameter named by the lowercased base
name, whatever the rest of the list contains. -/
theorem visitor_interface_determined_by_first_tag_enum
    (dir base : String) (a : AST_Class) (rest : List AST_Class) :
    define_ast dir base (a :: rest)
        = some ⟨path_join dir (base ++ ".java"),
            String.join (header base)
              ++ ("  interface Visitor<R> \x7b\n"
                  ++ String.join (a.name.enum_member_strs.map
                        (visitor_method_decl base))
                  ++ "  \x7d\n\n")
              ++ String.join ((a :: rest).map AST_Class.str)
              ++ base_accept_method ++ "\x7d\n"⟩
      ∧ visitor_method_decl base
          = (fun name => "    R visit" ++ name ++ base ++ "(" ++ name ++ " "
              ++ casefold base ++ ");\n")
      ∧ casefold base = String.mk (base.data.map Char.toLower) :=
  ⟨rfl, rfl, rfl⟩

/-- C1 (amended): the number of visitor-interface method declarations equals
the number of members of the enum type of the tag of the first variant (six
for Expression tags, three for Statement tags), in enum declaration order,
regardless of which tags occur in the variant list. -/
theorem visitor_method_count_follows_enum_members
    (dir base : String) (a : AST_Class) (rest : List AST_Class) :
    define_ast dir base (a :: rest)
        = some ⟨path_join dir (base ++ ".java"),
            String.join (header base)
              ++ generate_visitor_interface base a.name.enum_member_strs
              ++ String.join ((a :: rest).map AST_Class.str)
              ++ base_accept_method ++ "\x7d\n"⟩
      ∧ (a.name.enum_member_strs.map (visitor_method_decl base)).length
          = a.name.enum_member_strs.length
      ∧ a.name.enum_member_strs.length
          = (match a.name with | .expr _ => 6 | .stmt _ => 3) := by
  refine ⟨rfl, by simp, ?_⟩
  rcases a with ⟨b, n, ps⟩
  cases n <;> rfl

set_option maxRecDepth 40000 in
/-- C1 is false as stated: for the single-variant list [Literal] the emitted
text declares six visitor-interface methods, while the list has one distinct
tag. -/
theorem visitor_method_count_ignores_distinct_tags_cx :
    (define_ast "out" "Expression" [literal_only]).map
        (fun w => countSubstr w.contents "    R visit") = some 6
      ∧ (distinct_tags [literal_only]).length = 1
      ∧ (6 : Nat) ≠ 1 :=
  ⟨by decide, by decide, by decide⟩

set_option maxRecDepth 40000 in
/-- C2 is false as stated: for family "Expression" with the single variant
Literal, the visitor interface of the emitted text has six methods, not
exactly one. -/
theorem scenarioA_interface_not_single_method_cx :
    (define_ast "out" "Expression" [literal_only]).map
        (fun w => countSubstr w.contents "    R visit") ≠ some 1 := by
  decide

set_option maxRecDepth 100000 in
/-- C2 (amended): the Scenario A output contains the interface method
visitLiteralExpression(Literal expression) as one of six visitor-interface
methods (one per Expression tag), the class Literal extending Expression
with constructor Literal(Object value) and body this.value = value;, an
accept method returning visitor.visitLiteralExpression(this), and the final
field declaration final Object value;. -/
theorem scenarioA_output_contents :
    (define_ast "out" "Expression" [literal_only]).map (fun w =>
        containsSubstr w.contents
            "    R visitLiteralExpression(Literal expression);\n"
          && containsSubstr w.contents
            "  static class Literal extends Expression \x7b\n"
          && containsSubstr w.contents "    Literal(Object value) \x7b\n"
          && containsSubstr w.contents "        this.value = value;\n"
          && containsSubstr w.contents
            "        return visitor.visitLiteralExpression(this);\n"
          && containsSubstr w.contents "    final Object value;\n"
          && (countSubstr w.contents "    R visit" == 6))
      = some true := by
  decide

set_option maxRecDepth 40000 in
/-- C3 is false as stated: for a list with the tag Literal repeated, the
interface declaration of visitLiteralExpression occurs exactly once in the
emitted text, not at least twice. -/
theorem duplicate_tags_single_interface_decl_cx :
    (define_ast "out" "Expression" [literal_only, literal_only]).map
        (fun w => countSubstr w.contents
          "    R visitLiteralExpression(Literal expression);\n") = some 1
      ∧ ¬ 2 ≤ (1 : Nat) :=
  ⟨by decide, by decide⟩

/-- C3 (amended): a repeated tag does not duplicate any visitor-interface
declaration: the interface is generated from the member list of the enum
type of the first variant, and that list has no duplicates. -/
theorem interface_decls_follow_enum_nodup
    (dir base : String) (a : AST_Class) (rest : List AST_Class) :
    define_ast dir base (a :: rest)
        = some ⟨path_join dir (base ++ ".java"),
            String.join (header base)
              ++ generate_visitor_interface base a.name.enum_member_strs
              ++ String.join ((a :: rest).map AST_Class.str)
              ++ base_accept_method ++ "\x7d\n"⟩
      ∧ a.name.enum_member_strs.Nodup := by
  refine ⟨rfl, ?_⟩
  rcases a with ⟨b, n, ps⟩
  cases n with
  | expr t =>
    exact (by decide : (Expression_Type.members.map Expression_Type.str).Nodup)
  | stmt t =>
    exact (by decide : (Statement_Type.members.map Statement_Type.str).Nodup)

/-- C4: for every variant v of the input list whose family matches the base
name and whose tag is from the same enum as the first variant, the method
name invoked in the emitted accept-method body is exactly
visit + tag + base, and the visitor-interface block contains a declaration
of exactly that name taking one parameter whose declared type is the tag of
v. -/
theorem accept_method_matches_interface_decl
    (base : String) (a v : AST_Class) (rest : List AST_Class)
    (hv : v ∈ a :: rest) (hb : v.base_name = base)
    (he : AST_Name.enum_eq v.name a.name = true) :
    v.generate_visitor_method
        = "    @Override\n"
          ++ "    <R> R accept(Visitor<R> visitor) \x7b\n"
          ++ ("        return visitor." ++ ("visit" ++ v.name.str ++ base)
              ++ "(this);\n")
          ++ "    \x7d\n\n"
      ∧ visitor_method_decl base v.name.str
          = "    R " ++ ("visit" ++ v.name.str ++ base)
            ++ ("(" ++ v.name.str ++ " " ++ casefold base ++ ");\n")
      ∧ ∃ pre post,
          generate_visitor_interface base a.name.enum_member_strs
            = pre ++ visitor_method_decl base v.name.str ++ post := by
  subst hb
  refine ⟨?_, ?_, ?_⟩
  · have hlit : ("        return visitor.visit" : String).data
        = ("        return visitor." : String).data
          ++ ("visit" : String).data := rfl
    apply String.ext
    simp [AST_Class.generate_visitor_method, hlit, List.append_assoc]
  · have hlit : ("    R visit" : String).data
        = ("    R " : String).data ++ ("visit" : String).data := rfl
    apply String.ext
    simp [visitor_method_decl, hlit, List.append_assoc]
  · obtain ⟨l1, l2, hsplit⟩ :=
      List.append_of_mem (mem_enum_member_strs_of_enum_eq v.name a.name he)
    refine ⟨"  interface Visitor<R> \x7b\n"
        ++ String.join (l1.map (visitor_method_decl v.base_name)),
      String.join (l2.map (visitor_method_decl v.base_name)) ++ "  \x7d\n\n",
      ?_⟩
    simp only [generate_visitor_interface, hsplit, join_map_split]
    simp [String.append_assoc]

/-- Witness for C4 at the Scenario A input. -/
theorem accept_method_matches_interface_decl_witness :
    (literal_only ∈ [literal_only]
        ∧ literal_only.base_name = "Expression"
        ∧ AST_Name.enum_eq literal_only.name literal_only.name = true)
      ∧ (literal_only.generate_visitor_method
            = "    @Override\n"
              ++ "    <R> R accept(Visitor<R> visitor) \x7b\n"
              ++ ("        return visitor."
                  ++ ("visit" ++ literal_only.name.str ++ "Expression")
                  ++ "(this);\n")
              ++ "    \x7d\n\n"
        ∧ visitor_method_decl "Expression" literal_only.name.str
            = "    R " ++ ("visit" ++ literal_only.name.str ++ "Expression")
              ++ ("(" ++ literal_only.name.str ++ " "
                  ++ casefold "Expression" ++ ");\n")
        ∧ ∃ pre post,
            generate_visitor_interface "Expression"
                literal_only.name.enum_member_strs
              = pre ++ visitor_method_decl "Expression" literal_only.name.str
                ++ post) :=
  ⟨⟨List.mem_cons_self literal_only [], rfl, rfl⟩,
    accept_method_matches_interface_decl "Expression" literal_only
      literal_only [] (List.mem_cons_self literal_only []) rfl rfl⟩
